import Mathlib

/-!
Verification of the nuxt3Ex request layer (`src/composables/useRequest.ts`)
and the toggleable text state (`src/composables/useN3EG.ts`).

JavaScript values are embedded as the inductive `JSVal`; JS truthiness,
property access (plain and optional-chaining), `||` short-circuiting,
`Object.assign` on string maps, and template-literal string coercion are
modelled explicitly.  Plain property access on `null`/`undefined` throws in
JavaScript, so the one place the source performs it on an unchecked value
(`ctx.data.detail` in the 422/400 branch of `onFetchError`) is modelled with
`Except`.
-/

set_option autoImplicit false

namespace Nuxt3Ex

/-- A JSON-ish JavaScript value: `undefined`, `null`, booleans, numbers
(modelled as integers - all numbers appearing in this code are integral),
strings, arrays and plain objects (ordered association lists of fields). -/
inductive JSVal where
  | undefined
  | null
  | bool (b : Bool)
  | num (n : Int)
  | str (s : String)
  | arr (elems : List JSVal)
  | obj (fields : List (String × JSVal))

/-- JS truthiness: `undefined`, `null`, `false`, `0` and `""` are falsy;
every array and every object (including the empty ones) is truthy. -/
def truthy : JSVal → Bool
  | .undefined => false
  | .null => false
  | .bool b => b
  | .num n => n != 0
  | .str s => s != ""
  | .arr _ => true
  | .obj _ => true

/-- First value bound to a key in an association list, `undefined` if absent. -/
def findKey : List (String × JSVal) → String → JSVal
  | [], _ => .undefined
  | (k', v) :: rest, k => if k' = k then v else findKey rest k

/-- Property read `v.k` on a value known (or optionally chained) to be safe:
on an object it looks the field up, on any other value it yields `undefined`
(this also realises the short-circuit of `?.` since reads on `undefined`
propagate `undefined`). -/
def getField : JSVal → String → JSVal
  | .obj fs, k => findKey fs k
  | _, _ => .undefined

/-- Plain (non-optional) property read `v.k`: throws a `TypeError` when the
base is `null` or `undefined`, as JavaScript does. -/
def strictGet : JSVal → String → Except String JSVal
  | .undefined, k => .error ("TypeError: cannot read properties of undefined, reading " ++ k)
  | .null, k => .error ("TypeError: cannot read properties of null, reading " ++ k)
  | v, k => .ok (getField v k)

/-- Numeric index read `v[i]` under optional chaining: array element, object
field with the decimal key, character of a string, else `undefined`. -/
def jsIndex : JSVal → Nat → JSVal
  | .arr xs, i => (xs.get? i).getD .undefined
  | .obj fs, i => findKey fs (toString i)
  | .str s, i => match s.data.get? i with
    | some c => .str (String.mk [c])
    | none => .undefined
  | _, _ => .undefined

/-- JavaScript `a || b`: `a` when truthy, else `b`. -/
def jsOr (a b : JSVal) : JSVal :=
  if truthy a then a else b

/-- Bind a key in an association list, overwriting the first occurrence or
appending (the effect of `Object.assign(target, single-key-source)` and of
plain property assignment). -/
def setKey : List (String × JSVal) → String → JSVal → List (String × JSVal)
  | [], k, x => [(k, x)]
  | (k', v) :: rest, k, x => if k' = k then (k, x) :: rest else (k', v) :: setKey rest k x

/-- Property write `v.k = x`; on a non-object primitive the write is silently
dropped, as in non-strict JavaScript. -/
def setField (v : JSVal) (k : String) (x : JSVal) : JSVal :=
  match v with
  | .obj fs => .obj (setKey fs k x)
  | other => other

mutual

/-- Template-literal coercion of a value to a string. -/
def jsToString : JSVal → String
  | .undefined => "undefined"
  | .null => "null"
  | .bool b => if b then "true" else "false"
  | .num n => toString n
  | .str s => s
  | .arr xs => jsJoin xs
  | .obj _ => "[object Object]"

/-- `Array.prototype.toString`: elements joined by commas, with nullish
elements rendered as the empty string. -/
def jsJoin : List JSVal → String
  | [] => ""
  | [x] => jsElemString x
  | x :: xs => jsElemString x ++ "," ++ jsJoin xs

/-- How a single array element renders inside a join. -/
def jsElemString : JSVal → String
  | .undefined => ""
  | .null => ""
  | v => jsToString v

end

/-- The part of the fetch response the error hook reads: `status` and `url`. -/
structure Response where
  status : Int
  url : String

/-- `messageResponse(ctx)` from `useRequest.ts` lines 23-36: `undefined` when
there is no response or no (truthy) body; with a truthy `detail` field the
chain first-validation-entry `msg`, `detail.message`, `detail.msg`, raw
`detail`; otherwise `message`, `msg`, then the raw body.  All property reads
here are either optionally chained or guarded by a truthiness test, so the
function is total. -/
def messageResponse (response : Option Response) (data : JSVal) : JSVal :=
  if response.isNone || !truthy data then .undefined
  else if truthy data && truthy (getField data "detail") then
    jsOr (getField (jsIndex (getField data "detail") 0) "msg")
      (jsOr (getField (getField data "detail") "message")
        (jsOr (getField (getField data "detail") "msg")
          (getField data "detail")))
  else
    jsOr (getField data "message") (jsOr (getField data "msg") data)

/-- Lines 141-146 of `onFetchError`: after branch selection, write
`errorCode` = the response status, `raw` = the response body, and
`endpoint` = the response url onto the selected error object. -/
def attachMeta (err : JSVal) (status : Int) (data : JSVal) (url : String) : JSVal :=
  setField (setField (setField err "errorCode" (.num status)) "raw" data) "endpoint" (.str url)

/-- The ordered status classification of `onFetchError` (lines 80-139), for a
request that did reach a response.  The 422/400 branch performs the plain
read `ctx.data.detail` (line 85), which throws when the body is nullish. -/
def selectBranch (resp : Response) (data : JSVal) : Except String JSVal :=
  if resp.status = 422 ∨ resp.status = 400 then
    match strictGet data "detail" with
    | .error e => .error e
    | .ok detail =>
      .ok (.obj [("message", messageResponse (some resp) data),
                 ("type", .str "fastapiError"),
                 ("location", jsOr (getField (jsIndex detail 0) "loc") .null)])
  else if resp.status = 404 then
    .ok (.obj [("message", jsOr (messageResponse (some resp) data) (.str "Entity Not Found")),
               ("type", .str "notFound"),
               ("location", getField (getField data "detail") "id")])
  else if resp.status = 502 then
    .ok (.obj [("message", jsOr (messageResponse (some resp) data) (.str "Bad Gateway")),
               ("type", .str "serverError")])
  else if resp.status = 503 then
    .ok (.obj [("message", jsOr (messageResponse (some resp) data) (.str "Service is not available right now.")),
               ("type", .str "serverError")])
  else if resp.status = 504 then
    .ok (.obj [("message", jsOr (messageResponse (some resp) data) (.str "Gateway Timeout Error")),
               ("type", .str "serverError")])
  else if resp.status = 500 then
    .ok (.obj [("errorCode", .num 500),
               ("message", jsOr (messageResponse (some resp) data)
                 (.str "Internal Server Error. The server unable to complete your request")),
               ("type", .str "serverError")])
  else
    .ok (.obj [("message", jsOr (messageResponse (some resp) data) (.str "Miscellaneous Error")),
               ("type", .str "others")])

/-- `onFetchError(ctx)` (lines 64-149), as the map from the response (absent
on a network-level failure) and the decoded body to the error value the hook
stores on the context.  The no-response branch returns immediately; every
other branch is post-processed by `attachMeta`. -/
def onFetchError (response : Option Response) (data : JSVal) : Except String JSVal :=
  match response with
  | none =>
    .ok (.obj [("errorCode", .num 500),
               ("message", .str "Failed to load response data | Unknown Error"),
               ("type", .str "unknown")])
  | some resp => (selectBranch resp data).map (fun e => attachMeta e resp.status data resp.url)

/-- The environment values `beforeFetch` reads: the mode flag and the two
optional tokens (a Vite env var is either absent or a string). -/
structure Env where
  MODE : String
  gitlabToken : Option String
  federationToken : Option String

/-- Truthiness of an env var: present and non-empty. -/
def envTruthy : Option String → Bool
  | none => false
  | some s => s != ""

/-- Bind a key in a string-valued header map, overwriting or appending. -/
def setHeader : List (String × String) → String → String → List (String × String)
  | [], k, x => [(k, x)]
  | (k', v) :: rest, k, x => if k' = k then (k, x) :: rest else (k', v) :: setHeader rest k x

/-- `beforeFetch` (lines 39-63) acting on `options.headers` (which may start
out absent): in development mode it assigns `X-Gitlab-Token` when the Gitlab
token is truthy and `Authorization: Bearer ...` when the federation token is
truthy, independently; otherwise the headers pass through untouched. -/
def beforeFetch (env : Env) (headers : Option (List (String × String))) :
    Option (List (String × String)) :=
  if env.MODE = "development" then
    let h1 :=
      if envTruthy env.gitlabToken then
        some (setHeader (headers.getD []) "X-Gitlab-Token" (env.gitlabToken.getD ""))
      else headers
    let h2 :=
      if envTruthy env.federationToken then
        some (setHeader (h1.getD []) "Authorization" ("Bearer " ++ env.federationToken.getD ""))
      else h1
    h2
  else headers

/-- vueuse `isObject`: true exactly on plain objects (not arrays, not null). -/
def isObject : JSVal → Bool
  | .obj _ => true
  | _ => false

/-- The field list of an object value (the argument `stringifyQuery` receives
in the object branch of `useGet`). -/
def objFields : JSVal → List (String × JSVal)
  | .obj fs => fs
  | _ => []

/-- The URL computed inside `useGet` (lines 185-193), parametric in the
external serializer `stringifyQuery` from vue-router: an object query is
serialized, any other query is `_query || ''`; a `?` is inserted exactly when
the resulting `queryString` value is truthy, and the value is then coerced to
text by the template literal. -/
def useGetUrl (stringifyQuery : List (String × JSVal) → String) (url : String)
    (query : JSVal) : String :=
  let queryString : JSVal :=
    if isObject query then .str (stringifyQuery (objFields query)) else jsOr query (.str "")
  url ++ (if truthy queryString then "?" else "") ++ jsToString queryString

/-- The toggleable text state of `useN3EG.ts`: a single string. -/
structure N3EGState where
  text : String

/-- `useN3EG()`: the state starts as the literal default. -/
def useN3EG : N3EGState :=
  ⟨"N3EG"⟩

/-- `edit(value)`: set the text unconditionally to `value`. -/
def N3EGState.edit (_s : N3EGState) (value : String) : N3EGState :=
  ⟨value⟩

/-- `reset()`: set the text back to the literal default. -/
def N3EGState.reset (_s : N3EGState) : N3EGState :=
  ⟨"N3EG"⟩

/-- Unwrap a hook result known not to throw (used to state concrete facts). -/
def okOr (e : Except String JSVal) : JSVal :=
  match e with
  | .ok v => v
  | .error _ => .undefined

theorem findKey_setKey_self (fs : List (String × JSVal)) (k : String) (x : JSVal) :
    findKey (setKey fs k x) k = x := by
  induction fs with
  | nil => simp [setKey, findKey]
  | cons p rest ih =>
    obtain ⟨k', v⟩ := p
    by_cases h : k' = k
    · simp [setKey, findKey, h]
    · simp [setKey, findKey, h, ih]

theorem findKey_setKey_ne (fs : List (String × JSVal)) (k k' : String) (x : JSVal)
    (h : k ≠ k') : findKey (setKey fs k x) k' = findKey fs k' := by
  induction fs with
  | nil => simp [setKey, findKey, h]
  | cons p rest ih =>
    obtain ⟨a, b⟩ := p
    by_cases ha : a = k
    · subst ha; simp [setKey, findKey, h]
    · simp [setKey, findKey, ha, ih]

theorem attachMeta_obj (fs : List (String × JSVal)) (status : Int) (data : JSVal)
    (url : String) :
    attachMeta (.obj fs) status data url =
      .obj (setKey (setKey (setKey fs "errorCode" (.num status)) "raw" data)
        "endpoint" (.str url)) := rfl

theorem getField_attachMeta_errorCode (fs : List (String × JSVal)) (status : Int)
    (data : JSVal) (url : String) :
    getField (attachMeta (.obj fs) status data url) "errorCode" = .num status := by
  rw [attachMeta_obj]
  show findKey _ _ = _
  rw [findKey_setKey_ne _ _ _ _ (by decide), findKey_setKey_ne _ _ _ _ (by decide),
    findKey_setKey_self]

theorem getField_attachMeta_endpoint (fs : List (String × JSVal)) (status : Int)
    (data : JSVal) (url : String) :
    getField (attachMeta (.obj fs) status data url) "endpoint" = .str url := by
  rw [attachMeta_obj]
  show findKey _ _ = _
  rw [findKey_setKey_self]

theorem getField_attachMeta_preserve (b : JSVal) (status : Int) (data : JSVal)
    (url : String) (k : String) (h1 : k ≠ "errorCode") (h2 : k ≠ "raw")
    (h3 : k ≠ "endpoint") :
    getField (attachMeta b status data url) k = getField b k := by
  cases b <;> simp only [attachMeta, setField, getField]
  rw [findKey_setKey_ne _ _ _ _ (Ne.symm h3), findKey_setKey_ne _ _ _ _ (Ne.symm h2),
    findKey_setKey_ne _ _ _ _ (Ne.symm h1)]

theorem selectBranch_ok_obj (resp : Response) (data b : JSVal)
    (h : selectBranch resp data = .ok b) : ∃ fs, b = .obj fs := by
  unfold selectBranch at h
  repeat' split at h
  all_goals first
    | exact Except.noConfusion h
    | (injection h with h; exact ⟨_, h.symm⟩)

theorem onFetchError_some_ok (resp : Response) (data err : JSVal)
    (h : onFetchError (some resp) data = .ok err) :
    ∃ b, selectBranch resp data = .ok b ∧ err = attachMeta b resp.status data resp.url := by
  have h' : Except.map (fun e => attachMeta e resp.status data resp.url)
      (selectBranch resp data) = .ok err := h
  cases e : selectBranch resp data with
  | error s => rw [e] at h'; exact Except.noConfusion h'
  | ok b =>
    rw [e] at h'
    simp only [Except.map] at h'
    injection h' with h'
    exact ⟨b, rfl, h'.symm⟩

theorem truthy_jsOr_right (a b : JSVal) (hb : truthy b = true) :
    truthy (jsOr a b) = true := by
  unfold jsOr; split <;> simp_all

theorem messageResponse_of_falsy (r : Response) (data : JSVal)
    (h : truthy data = false) : messageResponse (some r) data = .undefined := by
  simp [messageResponse, h]

theorem messageResponse_truthy (r : Response) (data : JSVal)
    (h : truthy data = true) : truthy (messageResponse (some r) data) = true := by
  unfold messageResponse
  by_cases hd : truthy (getField data "detail") = true
  · simp only [Option.isNone_some, h, Bool.not_true, Bool.or_false, Bool.false_eq_true,
      if_false, Bool.and_true, hd, if_true]
    exact truthy_jsOr_right _ _ (truthy_jsOr_right _ _ (truthy_jsOr_right _ _ hd))
  · simp only [Option.isNone_some, h, Bool.not_true, Bool.or_false, Bool.false_eq_true,
      if_false, Bool.and_true, hd, if_false]
    exact truthy_jsOr_right _ _ (truthy_jsOr_right _ _ h)

theorem messageResponse_raw_body (r : Response) (data : JSVal)
    (h : truthy data = true) (hd : truthy (getField data "detail") = false)
    (hmsg : truthy (getField data "message") = false)
    (hm : truthy (getField data "msg") = false) :
    messageResponse (some r) data = data := by
  simp [messageResponse, h, hd, jsOr, hmsg, hm]

end Nuxt3Ex

namespace Nuxt3Ex

/-- **C4.** For every failed request with no response object at all, the
error is exactly the three-field object with errorCode 500, the fixed
unknown-error message, and type "unknown" - with no other fields, since the
no-response branch returns before the metadata fields are attached. -/
theorem c4_no_response_exact (data : JSVal) :
    onFetchError none data =
      .ok (.obj [("errorCode", .num 500),
                 ("message", .str "Failed to load response data | Unknown Error"),
                 ("type", .str "unknown")]) := rfl

/-- **C9.** `edit v` followed by `reset` leaves the toggleable text at the
default "N3EG"; `edit v` sets the text unconditionally to `v`; and the
initial value of the text is "N3EG". -/
theorem c9_edit_reset_default (v : String) (s : N3EGState) :
    ((s.edit v).reset).text = "N3EG" ∧ (s.edit v).text = v ∧ useN3EG.text = "N3EG" :=
  ⟨rfl, rfl, rfl⟩

/-- **C1, counterexample.** In the no-response branch (here: a network
failure with a null body) the error carries no endpoint field at all - the
hook returns before the endpoint is attached - so the claim that every
failure branch populates `endpoint` with the request URL is false. -/
theorem c1_counterexample :
    getField (okOr (onFetchError none .null)) "endpoint" = .undefined ∧
    JSVal.undefined ≠ .str "" := ⟨rfl, fun h => JSVal.noConfusion h⟩

/-- **C1, amended.** Every failed request that did reach a response yields an
error whose `errorCode` equals the response status and whose `endpoint`
equals the request URL; in the no-response branch the error instead has the
fixed `errorCode` 500 and no `endpoint` field. -/
theorem c1_errorCode_endpoint :
    (∀ (status : Int) (url : String) (data err : JSVal),
       onFetchError (some ⟨status, url⟩) data = .ok err →
       getField err "errorCode" = .num status ∧ getField err "endpoint" = .str url) ∧
    (∀ data : JSVal,
       getField (okOr (onFetchError none data)) "errorCode" = .num 500 ∧
       getField (okOr (onFetchError none data)) "endpoint" = .undefined) := by
  constructor
  · intro status url data err h
    obtain ⟨b, hb, rfl⟩ := onFetchError_some_ok ⟨status, url⟩ data err h
    obtain ⟨fs, rfl⟩ := selectBranch_ok_obj _ _ _ hb
    exact ⟨getField_attachMeta_errorCode .., getField_attachMeta_endpoint ..⟩
  · intro data
    exact ⟨rfl, rfl⟩

/-- **C1, witness.** The amended statement applied at status 418 on url
"http://api/t" with the body carrying a `msg` field. -/
theorem c1_witness :
    getField (okOr (onFetchError (some ⟨418, "http://api/t"⟩)
        (.obj [("msg", .str "teapot")]))) "errorCode" = .num 418 ∧
    getField (okOr (onFetchError (some ⟨418, "http://api/t"⟩)
        (.obj [("msg", .str "teapot")]))) "endpoint" = .str "http://api/t" :=
  c1_errorCode_endpoint.1 418 "http://api/t" (.obj [("msg", .str "teapot")]) _ rfl

/-- **C2, counterexample.** For status 500 with body the empty object, the
extracted message is the raw body itself - the empty object is truthy in
JavaScript, so the `||` never reaches the fixed fallback string - hence the
message is not the fallback string the claim requires. -/
theorem c2_counterexample :
    getField (okOr (onFetchError (some ⟨500, "http://api/x"⟩) (.obj []))) "message" =
      .obj [] ∧
    JSVal.obj [] ≠
      .str "Internal Server Error. The server unable to complete your request" :=
  ⟨rfl, fun h => JSVal.noConfusion h⟩

/-- **C2, amended.** For a failed request with status 500 and body the empty
object, the error has type "serverError", errorCode 500, and message equal
to the raw body (the empty object, which is truthy, so the fixed fallback
string is not used); raw and endpoint are attached as usual. -/
theorem c2_server_error_500_empty_body :
    onFetchError (some ⟨500, "http://api/x"⟩) (.obj []) =
      .ok (.obj [("errorCode", .num 500),
                 ("message", .obj []),
                 ("type", .str "serverError"),
                 ("raw", .obj []),
                 ("endpoint", .str "http://api/x")]) := rfl

/-- **C3, counterexample.** For status 404 with body the empty object, the
extracted message is the (truthy) empty object itself, so the message is not
the string "Entity Not Found" the claim requires. -/
theorem c3_counterexample :
    getField (okOr (onFetchError (some ⟨404, "http://api/y"⟩) (.obj []))) "message" =
      .obj [] ∧
    JSVal.obj [] ≠ .str "Entity Not Found" :=
  ⟨rfl, fun h => JSVal.noConfusion h⟩

/-- **C3, amended.** For a failed request with status 404 and body the empty
object, the error has type "notFound" and errorCode 404, but message equal
to the raw body (the truthy empty object) rather than the fallback string
"Entity Not Found"; location is undefined since the body has no detail. -/
theorem c3_not_found_404_empty_body :
    onFetchError (some ⟨404, "http://api/y"⟩) (.obj []) =
      .ok (.obj [("message", .obj []),
                 ("type", .str "notFound"),
                 ("location", .undefined),
                 ("errorCode", .num 404),
                 ("raw", .obj []),
                 ("endpoint", .str "http://api/y")]) := rfl

theorem selectBranch_fastapi (resp : Response) (data b : JSVal)
    (hstat : resp.status = 422 ∨ resp.status = 400)
    (h : selectBranch resp data = .ok b) :
    b = .obj [("message", messageResponse (some resp) data),
              ("type", .str "fastapiError"),
              ("location",
                jsOr (getField (jsIndex (getField data "detail") 0) "loc") .null)] := by
  unfold selectBranch at h
  rw [if_pos hstat] at h
  cases data <;> simp_all [strictGet]

/-- **C5.** For status 422 with a FastAPI validation body, the error has type
"fastapiError", message "field required", location the `loc` path, and
errorCode 422; and in general, for status 422 or 400, the location is the
first validation entry's `loc` path when that path is present (an array),
and null when it is absent. -/
theorem c5_fastapi_validation :
    (onFetchError (some ⟨422, "http://api/items"⟩)
        (.obj [("detail", .arr [.obj [("msg", .str "field required"),
                                      ("loc", .arr [.str "body", .str "name"])]])]) =
      .ok (.obj [("message", .str "field required"),
                 ("type", .str "fastapiError"),
                 ("location", .arr [.str "body", .str "name"]),
                 ("errorCode", .num 422),
                 ("raw", .obj [("detail", .arr [.obj [("msg", .str "field required"),
                                  ("loc", .arr [.str "body", .str "name"])]])]),
                 ("endpoint", .str "http://api/items")])) ∧
    (∀ (status : Int) (url : String) (data err : JSVal),
       (status = 422 ∨ status = 400) →
       onFetchError (some ⟨status, url⟩) data = .ok err →
       (getField (jsIndex (getField data "detail") 0) "loc" = .undefined →
          getField err "location" = .null) ∧
       (∀ xs, getField (jsIndex (getField data "detail") 0) "loc" = .arr xs →
          getField err "location" = .arr xs)) := by
  refine ⟨rfl, ?_⟩
  intro status url data err hstat h
  obtain ⟨b, hb, rfl⟩ := onFetchError_some_ok _ _ _ h
  have hbform := selectBranch_fastapi _ _ _ hstat hb
  subst hbform
  rw [getField_attachMeta_preserve _ _ _ _ _ (by decide) (by decide) (by decide)]
  constructor
  · intro hl
    show findKey _ _ = _
    simp [findKey, hl, jsOr, truthy]
  · intro xs hl
    show findKey _ _ = _
    simp [findKey, hl, jsOr, truthy]

/-- **C5, witness.** The general location statement applied at status 422 on
the FastAPI validation body, where the first entry's `loc` path is the array
["body", "name"]. -/
theorem c5_witness :
    getField (okOr (onFetchError (some ⟨422, "http://api/items"⟩)
        (.obj [("detail", .arr [.obj [("msg", .str "field required"),
                 ("loc", .arr [.str "body", .str "name"])]])]))) "location" =
      .arr [.str "body", .str "name"] :=
  (c5_fastapi_validation.2 422 "http://api/items"
      (.obj [("detail", .arr [.obj [("msg", .str "field required"),
               ("loc", .arr [.str "body", .str "name"])]])]) _
      (Or.inl rfl) rfl).2 _ rfl

/-- **C8.** For the unmapped status 418 with a body carrying only `msg`, the
error has type "others", message "teapot" and errorCode 418; and in general,
when the body is truthy and has no truthy `detail`, message extraction falls
back through the body's `message`, then `msg`, then the raw body itself. -/
theorem c8_unmapped_status_fallback :
    (onFetchError (some ⟨418, "http://api/t2"⟩) (.obj [("msg", .str "teapot")]) =
      .ok (.obj [("message", .str "teapot"),
                 ("type", .str "others"),
                 ("errorCode", .num 418),
                 ("raw", .obj [("msg", .str "teapot")]),
                 ("endpoint", .str "http://api/t2")])) ∧
    (∀ (r : Response) (data : JSVal),
       truthy data = true →
       truthy (getField data "detail") = false →
       messageResponse (some r) data =
         (if truthy (getField data "message") then getField data "message"
          else if truthy (getField data "msg") then getField data "msg"
          else data)) := by
  refine ⟨rfl, ?_⟩
  intro r data hdata hdetail
  simp [messageResponse, hdata, hdetail, jsOr]

/-- **C8, witness.** The fallback chain applied to the truthy body carrying
only a `msg` field: the extracted message is "teapot". -/
theorem c8_witness :
    messageResponse (some ⟨418, "http://api/t2"⟩) (.obj [("msg", .str "teapot")]) =
      (if truthy (getField (JSVal.obj [("msg", .str "teapot")]) "message")
       then getField (JSVal.obj [("msg", .str "teapot")]) "message"
       else if truthy (getField (JSVal.obj [("msg", .str "teapot")]) "msg")
       then getField (JSVal.obj [("msg", .str "teapot")]) "msg"
       else JSVal.obj [("msg", .str "teapot")]) :=
  c8_unmapped_status_fallback.2 ⟨418, "http://api/t2"⟩ _ rfl rfl

/-- **C6.** Outside development mode, `beforeFetch` leaves the outgoing
headers exactly as they were - so no X-Gitlab-Token and no Authorization
header is added - and the result does not depend on either token value. -/
theorem c6_no_auth_outside_dev (mode : String) (g f g' f' : Option String)
    (h : Option (List (String × String))) (hmode : mode ≠ "development") :
    beforeFetch ⟨mode, g, f⟩ h = h ∧
    beforeFetch ⟨mode, g, f⟩ h = beforeFetch ⟨mode, g', f'⟩ h := by
  constructor <;> simp [beforeFetch, hmode]

/-- **C6, witness.** In "production" mode with both tokens set, the headers
pass through untouched and agree with the run where both tokens are absent. -/
theorem c6_witness :
    beforeFetch ⟨"production", some "tok-a", some "tok-b"⟩
        (some [("Content-Type", "application/json")]) =
      some [("Content-Type", "application/json")] ∧
    beforeFetch ⟨"production", some "tok-a", some "tok-b"⟩
        (some [("Content-Type", "application/json")]) =
      beforeFetch ⟨"production", none, none⟩
        (some [("Content-Type", "application/json")]) :=
  c6_no_auth_outside_dev "production" (some "tok-a") (some "tok-b") none none
    (some [("Content-Type", "application/json")]) (by decide)

/-- **C7, counterexample.** With query the empty array - a truthy non-object
value whose string coercion is empty - the GET helper appends a bare "?"
even though the resulting query text is empty, contradicting the claim that
an empty query string appends nothing. -/
theorem c7_counterexample :
    useGetUrl (fun _ => "") "http://a" (.arr []) = "http://a?" ∧
    "http://a?" ≠ "http://a" := by
  refine ⟨?_, by decide⟩
  simp [useGetUrl, isObject, jsOr, truthy, jsToString, jsJoin, objFields]

/-- **C7, amended.** The GET helper serializes an object query and appends it
after a "?" when the serialized string is non-empty, appending nothing when
it is empty; an absent or falsy non-object query appends nothing; and a
truthy non-object query always appends a "?" followed by its string
coercion - which may itself be empty, as for the empty array. -/
theorem c7_get_url_building (sq : List (String × JSVal) → String) (url : String)
    (q : JSVal) :
    (∀ fs, q = .obj fs →
       useGetUrl sq url q = if sq fs = "" then url else url ++ "?" ++ sq fs) ∧
    (isObject q = false → truthy q = false → useGetUrl sq url q = url) ∧
    (isObject q = false → truthy q = true →
       useGetUrl sq url q = url ++ "?" ++ jsToString q) := by
  refine ⟨?_, ?_, ?_⟩
  · rintro fs rfl
    by_cases hs : sq fs = "" <;>
      simp [useGetUrl, isObject, objFields, truthy, jsToString, hs]
  · intro hobj hq
    cases q <;> simp_all [useGetUrl, isObject, truthy, jsOr, jsToString]
  · intro hobj hq
    simp [useGetUrl, hobj, jsOr, hq]

theorem selectBranch_message_truthy (resp : Response) (data b : JSVal)
    (hstat : ¬(resp.status = 422 ∨ resp.status = 400))
    (h : selectBranch resp data = .ok b) :
    truthy (getField b "message") = true := by
  unfold selectBranch at h
  rw [if_neg hstat] at h
  repeat' split at h
  all_goals
    injection h with h
  all_goals
    subst h
  all_goals
    exact truthy_jsOr_right _ _ rfl

/-- **C10, counterexample.** For status 422 with body the empty object -
whose `detail`, `message` and `msg` fields are all absent - the message is
the truthy raw body itself, not undefined, so the claim's parenthetical case
fails. -/
theorem c10_counterexample :
    getField (okOr (onFetchError (some ⟨422, "http://api/z"⟩) (.obj []))) "message" =
      .obj [] ∧
    JSVal.obj [] ≠ .undefined := ⟨rfl, fun h => JSVal.noConfusion h⟩

/-- **C10, amended.** For a failed request with status 422 or 400, the
message is undefined exactly when the body itself is falsy: a falsy body
makes extraction yield undefined, while a truthy body always yields a truthy
message - in particular a truthy body whose detail, message and msg fields
are all absent or falsy yields the raw body itself.  The fastapiError branch
remains the only classification branch with no fallback default message
string: every other branch - any other status, and the no-response branch -
always produces a truthy message. -/
theorem c10_fastapi_message_undefined :
    (∀ (status : Int) (url : String) (data err : JSVal),
       (status = 422 ∨ status = 400) →
       onFetchError (some ⟨status, url⟩) data = .ok err →
       (truthy data = false → getField err "message" = .undefined) ∧
       (truthy data = true → truthy (getField err "message") = true) ∧
       (truthy data = true →
        truthy (getField data "detail") = false →
        truthy (getField data "message") = false →
        truthy (getField data "msg") = false →
        getField err "message" = data)) ∧
    (∀ (status : Int) (url : String) (data err : JSVal),
       ¬(status = 422 ∨ status = 400) →
       onFetchError (some ⟨status, url⟩) data = .ok err →
       truthy (getField err "message") = true) ∧
    (∀ data : JSVal,
       truthy (getField (okOr (onFetchError none data)) "message") = true) := by
  refine ⟨?_, ?_, fun _ => rfl⟩
  · intro status url data err hstat h
    obtain ⟨b, hb, rfl⟩ := onFetchError_some_ok _ _ _ h
    have hbform := selectBranch_fastapi _ _ _ hstat hb
    subst hbform
    rw [getField_attachMeta_preserve _ _ _ _ _ (by decide) (by decide) (by decide)]
    have hm : getField (JSVal.obj
        [("message", messageResponse (some ⟨status, url⟩) data),
         ("type", .str "fastapiError"),
         ("location",
           jsOr (getField (jsIndex (getField data "detail") 0) "loc") .null)])
        "message" = messageResponse (some ⟨status, url⟩) data := by
      simp [getField, findKey]
    rw [hm]
    exact ⟨fun hdata => messageResponse_of_falsy _ _ hdata,
           fun hdata => messageResponse_truthy _ _ hdata,
           fun hdata hd hmsg hms => messageResponse_raw_body _ _ hdata hd hmsg hms⟩
  · intro status url data err hstat h
    obtain ⟨b, hb, rfl⟩ := onFetchError_some_ok _ _ _ h
    rw [getField_attachMeta_preserve _ _ _ _ _ (by decide) (by decide) (by decide)]
    exact selectBranch_message_truthy _ _ _ hstat hb

/-- **C10, witness.** At status 422: the falsy empty-string body gives an
undefined message, while the truthy empty-object body - detail, message and
msg all absent - gives the raw body back as the message; at status 503 with
the empty-object body the message is truthy (the 503 branch has a
fallback). -/
theorem c10_witness :
    getField (okOr (onFetchError (some ⟨422, "http://api/w"⟩) (.str ""))) "message" =
      .undefined ∧
    truthy (getField (okOr (onFetchError (some ⟨422, "http://api/w"⟩) (.obj [])))
      "message") = true ∧
    getField (okOr (onFetchError (some ⟨422, "http://api/w"⟩) (.obj []))) "message" =
      .obj [] ∧
    truthy (getField (okOr (onFetchError (some ⟨503, "http://api/w"⟩) (.obj [])))
      "message") = true :=
  ⟨(c10_fastapi_message_undefined.1 422 "http://api/w" (.str "") _ (Or.inl rfl) rfl).1 rfl,
   (c10_fastapi_message_undefined.1 422 "http://api/w" (.obj []) _ (Or.inl rfl) rfl).2.1 rfl,
   (c10_fastapi_message_undefined.1 422 "http://api/w" (.obj []) _
     (Or.inl rfl) rfl).2.2 rfl rfl rfl rfl,
   c10_fastapi_message_undefined.2.1 503 "http://api/w" (.obj []) _ (by decide) rfl⟩

/-- **C7, witness.** The amended statement applied to a concrete object query
(serialized to "a=1&b=x") and to an absent query. -/
theorem c7_witness :
    useGetUrl (fun _ => "a=1&b=x") "http://a" (.obj [("a", .num 1), ("b", .str "x")]) =
      "http://a?a=1&b=x" ∧
    useGetUrl (fun _ => "a=1&b=x") "http://a" .undefined = "http://a" := by
  constructor
  · have := (c7_get_url_building (fun _ => "a=1&b=x") "http://a"
      (.obj [("a", .num 1), ("b", .str "x")])).1 [("a", .num 1), ("b", .str "x")] rfl
    simpa using this
  · exact (c7_get_url_building (fun _ => "a=1&b=x") "http://a" .undefined).2.1 rfl rfl

end Nuxt3Ex
